import Mathlib

/-!
# Verification of the cluster-autoscaler reconciliation loop

Shallow embedding of the `main` reconciliation loop of the cluster
autoscaler (package `main`, the `for { select { case <-time.After(...) }}`
body), together with the helper operations the loop calls.  Time is
modelled as `Nat` (one abstract instant per tick); the external world seen
by one tick (lister results, the predicate oracle, the results of the
`ScaleUp` / `FindUnneededNodes` / `ScaleDown` calls) is an explicit
`TickEnv` value, and the cross-tick mutable state (`lastScaleUpTime`,
`lastScaleDownFailedTrial`, `unneededNodes`, `podLocationHints`,
`usageTracker`) is a `LoopState` record threaded through `tick`.
-/

/-- A worker node: identity, the node group it belongs to (if any), and the
time at which it became available to the scheduler. -/
structure Node where
  id : String
  group : Option String
  availableTime : Nat
deriving Repr, DecidableEq

/-- A workload (pod): identity and the time at which the scheduler marked it
unschedulable (irrelevant for scheduled pods). -/
structure Pod where
  id : String
  unschedulableSince : Nat
deriving Repr, DecidableEq

/-- The configuration flags the loop reads (`scaleDownEnabled`,
`scaleDownDelay`, `scaleDownUnneededTime`, `scaleDownTrialInterval`,
`verifyUnschedulablePods`); durations in abstract time units. -/
structure Config where
  scaleDownEnabled : Bool
  scaleDownDelay : Nat
  scaleDownUnneededTime : Nat
  scaleDownTrialInterval : Nat
  verifyUnschedulablePods : Bool
deriving Repr, DecidableEq

/-- The result values of `ScaleDown` that `main` inspects:
`ScaleDownNodeDeleted` (success), `ScaleDownNoNodeDeleted` (nothing ready),
`ScaleDownError`. -/
inductive ScaleDownResult where
  | scaleDownNodeDeleted
  | scaleDownNoNodeDeleted
  | scaleDownError
deriving Repr, DecidableEq

/-- One usage-tracker entry: (workload id, node id, last-seen time). -/
structure UsageEntry where
  podId : String
  nodeId : String
  lastSeen : Nat
deriving Repr, DecidableEq

/-- The cross-tick mutable state owned by the loop (`lastScaleUpTime`,
`lastScaleDownFailedTrial`, `unneededNodes`, `podLocationHints`,
`usageTracker` in `main`). -/
structure LoopState where
  lastScaleUpTime : Nat
  lastScaleDownFailedTrial : Nat
  unneededNodes : List (String × Nat)
  podLocationHints : List (String × String)
  usageTracker : List UsageEntry
deriving Repr, DecidableEq

/-- Everything one tick observes from outside the loop state: the current
time, the three lister results, the predicate oracle (for a pod id, whether
some current node accepts it), and the outcomes of the `ScaleUp`,
`FindUnneededNodes` and `ScaleDown` calls should they be reached. -/
structure TickEnv where
  now : Nat
  nodesResult : Except Unit (List Node)
  unschedulableResult : Except Unit (List Pod)
  scheduledResult : Except Unit (List Pod)
  fits : String → Bool
  scaleUpResult : Except Unit Bool
  findUnneededResult : List (String × Nat) × List (String × String)
  scaleDownResult : Except Unit ScaleDownResult

/-- What one tick did: whether it aborted early (a `continue` before the
planners), the unsatisfied workload set after the reset slice and after the
unschedulable filter, the `schedulablePodsPresent` flag, and which passes
ran. -/
structure TickTrace where
  aborted : Bool := false
  toHelpBefore : List Pod := []
  toHelpAfter : List Pod := []
  schedulablePodsPresent : Bool := false
  scaleUpRan : Bool := false
  scaleUpErred : Bool := false
  scaledUp : Bool := false
  classificationRan : Bool := false
  actionRan : Bool := false
deriving Repr, DecidableEq

/-- Modelled from the spec: `CheckGroupsAndNodes` (its source is not under
`src/`; `main` only calls it).  Spec section 4.7: "verify every node belongs
to a known group (warn and abort tick otherwise)" — it errors exactly when
some node belongs to no known node group. -/
def CheckGroupsAndNodes (nodes : List Node) : Except Unit Unit :=
  if nodes.all (fun n => n.group.isSome) then Except.ok () else Except.error ()

/-- Modelled from the spec: `GetAllNodesAvailableTime` (source not under
`src/`).  Spec section 4.9 speaks of "the newest node's available
timestamp": the maximum available time over the listed nodes. -/
def GetAllNodesAvailableTime (nodes : List Node) : Nat :=
  nodes.foldl (fun acc n => max acc n.availableTime) 0

/-- Modelled from the spec: `SlicePodsByPodScheduledTime` (source not under
`src/`).  Spec section 4.9: workloads "whose unschedulable timestamp
predates the newest node's available timestamp" have their condition
cleared (first component, `podsToReset`); the rest remain the unsatisfied
set (second component, `unschedulablePodsToHelp`). -/
def SlicePodsByPodScheduledTime (pods : List Pod) (t : Nat) :
    List Pod × List Pod :=
  (pods.filter (fun p => decide (p.unschedulableSince < t)),
   pods.filter (fun p => decide (¬ p.unschedulableSince < t)))

/-- Modelled from the spec: `FilterOutSchedulable` (source not under
`src/`).  Spec section 4.8: a workload accepted by some current node (the
oracle answer, here the `fits` predicate) is removed from the unsatisfied
set. -/
def FilterOutSchedulable (pods : List Pod) (fits : String → Bool) :
    List Pod :=
  pods.filter (fun p => ! fits p.id)

/-- Modelled from the spec: `UsageTracker.CleanUp` (source not under
`src/`).  Spec section 4.2: "`CleanUp(cutoff)` drops all entries older than
`cutoff`". -/
def usageTrackerCleanUp (tracker : List UsageEntry) (cutoff : Nat) :
    List UsageEntry :=
  tracker.filter (fun e => decide (cutoff ≤ e.lastSeen))

/-- The trace of an aborted tick (a `continue` before any planner ran). -/
def abortedTrace : TickTrace := { aborted := true }

/-- The scale-down section of the tick body (`if *scaleDownEnabled { ... }`
in `main`): computes `calculateUnneededOnly` from the two time gates and
`schedulablePodsPresent`, always runs the classification pass
(`usageTracker.CleanUp` then `FindUnneededNodes`), and when
`calculateUnneededOnly` is false also runs the action pass (`ScaleDown`),
setting `lastScaleDownFailedTrial` on a non-error `ScaleDownError` or
`ScaleDownNoNodeDeleted` result. -/
def scaleDownSection (cfg : Config) (st : LoopState) (env : TickEnv)
    (schedulablePodsPresent : Bool) (base : TickTrace) :
    LoopState × TickTrace :=
  if cfg.scaleDownEnabled then
    let calculateUnneededOnly :=
      decide (env.now < st.lastScaleUpTime + cfg.scaleDownDelay) ||
      decide (env.now < st.lastScaleDownFailedTrial + cfg.scaleDownTrialInterval) ||
      schedulablePodsPresent
    let usage1 := usageTrackerCleanUp st.usageTracker
      (env.now - cfg.scaleDownUnneededTime)
    let st1 : LoopState :=
      { st with
        unneededNodes := env.findUnneededResult.1
        podLocationHints := env.findUnneededResult.2
        usageTracker := usage1 }
    let base1 : TickTrace := { base with classificationRan := true }
    if calculateUnneededOnly then
      (st1, base1)
    else
      let base2 : TickTrace := { base1 with actionRan := true }
      match env.scaleDownResult with
      | Except.error _ => (st1, base2)
      | Except.ok r =>
        if r = ScaleDownResult.scaleDownError ∨
            r = ScaleDownResult.scaleDownNoNodeDeleted then
          ({ st1 with lastScaleDownFailedTrial := env.now }, base2)
        else
          (st1, base2)
  else
    (st, base)

/-- The tick body once the three lister calls and the group check have
succeeded: the condition-reset slice, the unschedulable filter (when
`verifyUnschedulablePods`), the scale-up branch when unsatisfied workloads
remain (a scale-up error or a successful scale-up ends the tick), and
otherwise the scale-down section. -/
def tickBody (cfg : Config) (st : LoopState) (env : TickEnv)
    (nodes : List Node) (allUnschedulablePods : List Pod) :
    LoopState × TickTrace :=
  let allNodesAvailableTime := GetAllNodesAvailableTime nodes
  let unschedulablePodsToHelp :=
    (SlicePodsByPodScheduledTime allUnschedulablePods allNodesAvailableTime).2
  let newUnschedulablePodsToHelp :=
    if cfg.verifyUnschedulablePods then
      FilterOutSchedulable unschedulablePodsToHelp env.fits
    else
      unschedulablePodsToHelp
  let schedulablePodsPresent :=
    cfg.verifyUnschedulablePods &&
      decide (newUnschedulablePodsToHelp.length ≠ unschedulablePodsToHelp.length)
  let base : TickTrace :=
    { toHelpBefore := unschedulablePodsToHelp
      toHelpAfter := newUnschedulablePodsToHelp
      schedulablePodsPresent := schedulablePodsPresent }
  if newUnschedulablePodsToHelp.length = 0 then
    scaleDownSection cfg st env schedulablePodsPresent base
  else
    match env.scaleUpResult with
    | Except.error _ =>
      (st, { base with scaleUpRan := true, scaleUpErred := true })
    | Except.ok true =>
      ({ st with lastScaleUpTime := env.now },
       { base with scaleUpRan := true, scaledUp := true })
    | Except.ok false =>
      scaleDownSection cfg st env schedulablePodsPresent
        { base with scaleUpRan := true }

/-- One tick of the reconciliation loop (`main`'s loop body): list nodes
(abort on error or empty list), check group membership (abort on error),
list unschedulable and scheduled pods (abort on error), then run the tick
body. -/
def tick (cfg : Config) (st : LoopState) (env : TickEnv) :
    LoopState × TickTrace :=
  match env.nodesResult with
  | Except.error _ => (st, abortedTrace)
  | Except.ok nodes =>
    if nodes.length = 0 then
      (st, abortedTrace)
    else
      match CheckGroupsAndNodes nodes with
      | Except.error _ => (st, abortedTrace)
      | Except.ok _ =>
        match env.unschedulableResult with
        | Except.error _ => (st, abortedTrace)
        | Except.ok allUnschedulablePods =>
          match env.scheduledResult with
          | Except.error _ => (st, abortedTrace)
          | Except.ok _ =>
            tickBody cfg st env nodes allUnschedulablePods

/-- The loop state at process start (`lastScaleUpTime := time.Now()`,
`lastScaleDownFailedTrial := time.Now()`, empty maps, fresh usage tracker),
with `t0` the startup time. -/
def initialState (t0 : Nat) : LoopState :=
  { lastScaleUpTime := t0
    lastScaleDownFailedTrial := t0
    unneededNodes := []
    podLocationHints := []
    usageTracker := [] }

/-- The loop state just before tick `n`, starting from `st0` and feeding the
tick environments `envs 0, envs 1, ...` in order. -/
def stateBefore (cfg : Config) (st0 : LoopState) (envs : Nat → TickEnv) :
    Nat → LoopState
  | 0 => st0
  | n + 1 => (tick cfg (stateBefore cfg st0 envs n) (envs n)).1

/-- The trace of tick `n` of the run. -/
def traceAt (cfg : Config) (st0 : LoopState) (envs : Nat → TickEnv)
    (n : Nat) : TickTrace :=
  (tick cfg (stateBefore cfg st0 envs n) (envs n)).2

def nodeA : Node := { id := "node-a", group := some "group-1", availableTime := 0 }

def nodeBad : Node := { id := "node-x", group := none, availableTime := 0 }

def podP : Pod := { id := "pod-p", unschedulableSince := 5 }

def cfg0 : Config :=
  { scaleDownEnabled := true
    scaleDownDelay := 10
    scaleDownUnneededTime := 10
    scaleDownTrialInterval := 1
    verifyUnschedulablePods := true }

def envQuiet : TickEnv :=
  { now := 100
    nodesResult := Except.ok [nodeA]
    unschedulableResult := Except.ok []
    scheduledResult := Except.ok []
    fits := fun _ => false
    scaleUpResult := Except.ok false
    findUnneededResult := ([], [])
    scaleDownResult := Except.ok ScaleDownResult.scaleDownNodeDeleted }

def constEnvs (e : TickEnv) : Nat → TickEnv := fun _ => e

def envSdErr : TickEnv := { envQuiet with scaleDownResult := Except.error () }

def envSdNoNode : TickEnv :=
  { envQuiet with
    scaleDownResult := Except.ok ScaleDownResult.scaleDownNoNodeDeleted }

def envFallThrough : TickEnv :=
  { envQuiet with unschedulableResult := Except.ok [podP] }

def envFilter : TickEnv :=
  { envQuiet with
    unschedulableResult := Except.ok [podP]
    fits := fun _ => true }

def envListErr : TickEnv := { envQuiet with nodesResult := Except.error () }

def envBadNode : TickEnv :=
  { envQuiet with nodesResult := Except.ok [nodeA, nodeBad] }

def envT95 : TickEnv := { envQuiet with now := 95 }

theorem scaleDownSection_lastScaleUpTime (cfg : Config) (st : LoopState) (env : TickEnv)
    (b : Bool) (base : TickTrace) :
    (scaleDownSection cfg st env b base).1.lastScaleUpTime = st.lastScaleUpTime := by
  unfold scaleDownSection
  dsimp only
  repeat' split
  all_goals rfl

theorem scaleDownSection_scaledUp (cfg : Config) (st : LoopState) (env : TickEnv)
    (b : Bool) (base : TickTrace) :
    (scaleDownSection cfg st env b base).2.scaledUp = base.scaledUp := by
  unfold scaleDownSection
  dsimp only
  repeat' split
  all_goals rfl

theorem scaleDownSection_classificationRan (cfg : Config) (st : LoopState) (env : TickEnv)
    (b : Bool) (base : TickTrace) :
    (scaleDownSection cfg st env b base).2.classificationRan =
      (cfg.scaleDownEnabled || base.classificationRan) := by
  unfold scaleDownSection
  dsimp only
  repeat' split
  all_goals simp_all

theorem scaleDownSection_actionRan (cfg : Config) (st : LoopState) (env : TickEnv)
    (b : Bool) (base : TickTrace) (hb : base.actionRan = false) :
    ((scaleDownSection cfg st env b base).2.actionRan = true ↔
      (cfg.scaleDownEnabled = true ∧
       st.lastScaleUpTime + cfg.scaleDownDelay ≤ env.now ∧
       st.lastScaleDownFailedTrial + cfg.scaleDownTrialInterval ≤ env.now ∧
       b = false)) := by
  unfold scaleDownSection
  dsimp only
  repeat' split
  all_goals simp_all
  all_goals
    (intro h1 h2; rename_i henabled hcond;
     rcases hcond with (hc | hc) | hc <;> first | omega | exact hc)

theorem scaleDownSection_schedulablePodsPresent (cfg : Config) (st : LoopState)
    (env : TickEnv) (b : Bool) (base : TickTrace) :
    (scaleDownSection cfg st env b base).2.schedulablePodsPresent =
      base.schedulablePodsPresent := by
  unfold scaleDownSection
  dsimp only
  repeat' split
  all_goals rfl

theorem scaleDownSection_toHelpBefore (cfg : Config) (st : LoopState)
    (env : TickEnv) (b : Bool) (base : TickTrace) :
    (scaleDownSection cfg st env b base).2.toHelpBefore = base.toHelpBefore := by
  unfold scaleDownSection
  dsimp only
  repeat' split
  all_goals rfl

theorem scaleDownSection_toHelpAfter (cfg : Config) (st : LoopState)
    (env : TickEnv) (b : Bool) (base : TickTrace) :
    (scaleDownSection cfg st env b base).2.toHelpAfter = base.toHelpAfter := by
  unfold scaleDownSection
  dsimp only
  repeat' split
  all_goals rfl

theorem scaleDownSection_aborted (cfg : Config) (st : LoopState)
    (env : TickEnv) (b : Bool) (base : TickTrace) :
    (scaleDownSection cfg st env b base).2.aborted = base.aborted := by
  unfold scaleDownSection
  dsimp only
  repeat' split
  all_goals rfl

theorem scaleDownSection_scaleUpRan (cfg : Config) (st : LoopState)
    (env : TickEnv) (b : Bool) (base : TickTrace) :
    (scaleDownSection cfg st env b base).2.scaleUpRan = base.scaleUpRan := by
  unfold scaleDownSection
  dsimp only
  repeat' split
  all_goals rfl

theorem scaleDownSection_scaleUpErred (cfg : Config) (st : LoopState)
    (env : TickEnv) (b : Bool) (base : TickTrace) :
    (scaleDownSection cfg st env b base).2.scaleUpErred = base.scaleUpErred := by
  unfold scaleDownSection
  dsimp only
  repeat' split
  all_goals rfl

theorem scaleDownSection_lastTrial_cases (cfg : Config) (st : LoopState)
    (env : TickEnv) (b : Bool) (base : TickTrace) :
    (scaleDownSection cfg st env b base).1.lastScaleDownFailedTrial =
        st.lastScaleDownFailedTrial ∨
      (scaleDownSection cfg st env b base).1.lastScaleDownFailedTrial = env.now := by
  unfold scaleDownSection
  dsimp only
  repeat' split
  all_goals simp_all

theorem tick_aborted_eq (cfg : Config) (st : LoopState) (env : TickEnv)
    (h : env.nodesResult = Except.error () ∨
      (∃ nodes, env.nodesResult = Except.ok nodes ∧
        (nodes.length = 0 ∨ CheckGroupsAndNodes nodes = Except.error ())) ∨
      env.unschedulableResult = Except.error () ∨
      env.scheduledResult = Except.error ()) :
    tick cfg st env = (st, abortedTrace) := by
  unfold tick
  repeat' split
  all_goals simp_all

theorem tick_lastScaleUpTime_cases (cfg : Config) (st : LoopState) (env : TickEnv) :
    (tick cfg st env).1.lastScaleUpTime = st.lastScaleUpTime ∨
    ((tick cfg st env).1.lastScaleUpTime = env.now ∧
      (tick cfg st env).2.scaledUp = true) := by
  unfold tick tickBody
  dsimp only
  repeat' split
  all_goals
    simp_all [scaleDownSection_lastScaleUpTime, scaleDownSection_scaledUp, abortedTrace]

theorem tick_lastTrial_cases (cfg : Config) (st : LoopState) (env : TickEnv) :
    (tick cfg st env).1.lastScaleDownFailedTrial = st.lastScaleDownFailedTrial ∨
    (tick cfg st env).1.lastScaleDownFailedTrial = env.now := by
  unfold tick tickBody
  dsimp only
  repeat' split
  all_goals
    first
    | exact scaleDownSection_lastTrial_cases cfg st env _ _
    | simp_all [abortedTrace]

theorem tick_scaledUp_shortCircuits (cfg : Config) (st : LoopState) (env : TickEnv) :
    (tick cfg st env).2.scaledUp = true →
      (tick cfg st env).1.lastScaleUpTime = env.now ∧
      (tick cfg st env).2.classificationRan = false ∧
      (tick cfg st env).2.actionRan = false := by
  unfold tick tickBody
  dsimp only
  repeat' split
  all_goals
    simp_all [abortedTrace, scaleDownSection_scaledUp]

theorem tick_actionRan_imp_classificationRan (cfg : Config) (st : LoopState)
    (env : TickEnv) :
    (tick cfg st env).2.actionRan = true →
      (tick cfg st env).2.classificationRan = true := by
  unfold tick tickBody
  dsimp only
  repeat' split
  all_goals
    first
    | (intro ha;
       rw [scaleDownSection_classificationRan]
       rcases (scaleDownSection_actionRan cfg st env _ _ rfl).mp ha with ⟨he, -, -, -⟩
       simp [he])
    | simp_all [abortedTrace]

theorem tick_classification_gating (cfg : Config) (st : LoopState) (env : TickEnv) :
    (tick cfg st env).2.classificationRan = true →
      ((tick cfg st env).2.actionRan = true ↔
        (st.lastScaleUpTime + cfg.scaleDownDelay ≤ env.now ∧
         st.lastScaleDownFailedTrial + cfg.scaleDownTrialInterval ≤ env.now ∧
         (tick cfg st env).2.schedulablePodsPresent = false)) := by
  unfold tick tickBody
  dsimp only
  repeat' split
  all_goals
    first
    | (intro hc;
       rw [scaleDownSection_classificationRan] at hc
       simp only [Bool.or_eq_true] at hc
       rw [scaleDownSection_actionRan cfg st env _ _ rfl,
           scaleDownSection_schedulablePodsPresent]
       rcases hc with he | hbase
       · simp [he]
       · simp at hbase)
    | simp_all [abortedTrace]

theorem scaleDownSection_action_trial (cfg : Config) (st : LoopState) (env : TickEnv)
    (b : Bool) (base : TickTrace) (hb : base.actionRan = false)
    (ha : (scaleDownSection cfg st env b base).2.actionRan = true) :
    (env.scaleDownResult = Except.error () →
      (scaleDownSection cfg st env b base).1.lastScaleDownFailedTrial =
        st.lastScaleDownFailedTrial) ∧
    (∀ r, env.scaleDownResult = Except.ok r →
      ((r = ScaleDownResult.scaleDownError ∨
          r = ScaleDownResult.scaleDownNoNodeDeleted) →
        (scaleDownSection cfg st env b base).1.lastScaleDownFailedTrial = env.now) ∧
      (r = ScaleDownResult.scaleDownNodeDeleted →
        (scaleDownSection cfg st env b base).1.lastScaleDownFailedTrial =
          st.lastScaleDownFailedTrial)) := by
  unfold scaleDownSection at *
  dsimp only at *
  repeat' split at ha
  all_goals repeat' split
  all_goals simp_all
  all_goals (intro hr; subst hr; simp_all)

theorem tick_action_trial_update (cfg : Config) (st : LoopState) (env : TickEnv) :
    (tick cfg st env).2.actionRan = true →
      (env.scaleDownResult = Except.error () →
        (tick cfg st env).1.lastScaleDownFailedTrial =
          st.lastScaleDownFailedTrial) ∧
      (∀ r, env.scaleDownResult = Except.ok r →
        ((r = ScaleDownResult.scaleDownError ∨
            r = ScaleDownResult.scaleDownNoNodeDeleted) →
          (tick cfg st env).1.lastScaleDownFailedTrial = env.now) ∧
        (r = ScaleDownResult.scaleDownNodeDeleted →
          (tick cfg st env).1.lastScaleDownFailedTrial =
            st.lastScaleDownFailedTrial)) := by
  unfold tick tickBody
  dsimp only
  repeat' split
  all_goals
    first
    | exact fun ha => scaleDownSection_action_trial cfg st env _ _ rfl ha
    | simp_all [abortedTrace]

theorem tick_schedulablePodsPresent_iff (cfg : Config) (st : LoopState)
    (env : TickEnv) :
    (tick cfg st env).2.schedulablePodsPresent = true ↔
      (cfg.verifyUnschedulablePods = true ∧
       (tick cfg st env).2.toHelpAfter.length ≠
         (tick cfg st env).2.toHelpBefore.length) := by
  unfold tick tickBody
  dsimp only
  repeat' split
  all_goals
    simp_all [abortedTrace, scaleDownSection_schedulablePodsPresent,
      scaleDownSection_toHelpBefore, scaleDownSection_toHelpAfter]

theorem tick_schedPresent_suppresses_action (cfg : Config) (st : LoopState)
    (env : TickEnv) :
    (tick cfg st env).2.schedulablePodsPresent = true →
      (tick cfg st env).2.actionRan = false := by
  intro hsp
  cases hA : (tick cfg st env).2.actionRan
  · rfl
  · have hc := tick_actionRan_imp_classificationRan cfg st env hA
    have hg := (tick_classification_gating cfg st env hc).mp hA
    rw [hsp] at hg
    simp at hg

theorem tick_classification_conditions (cfg : Config) (st : LoopState)
    (env : TickEnv) :
    (tick cfg st env).2.classificationRan = true →
      cfg.scaleDownEnabled = true ∧
      ((tick cfg st env).2.toHelpAfter = [] ∨
        ((tick cfg st env).2.scaleUpRan = true ∧
          env.scaleUpResult = Except.ok false)) := by
  unfold tick tickBody
  dsimp only
  repeat' split
  all_goals
    simp_all [abortedTrace, scaleDownSection_classificationRan,
      scaleDownSection_toHelpAfter, scaleDownSection_scaleUpRan]

theorem tick_unsatisfied_scaleUpRan (cfg : Config) (st : LoopState)
    (env : TickEnv) :
    (tick cfg st env).2.aborted = false →
      (tick cfg st env).2.toHelpAfter ≠ [] →
      (tick cfg st env).2.scaleUpRan = true := by
  unfold tick tickBody
  dsimp only
  repeat' split
  all_goals
    simp_all [abortedTrace, scaleDownSection_aborted,
      scaleDownSection_toHelpAfter, scaleDownSection_scaleUpRan]

theorem tick_classificationRan_iff (cfg : Config) (st : LoopState)
    (env : TickEnv) :
    (tick cfg st env).2.classificationRan = true ↔
      ((tick cfg st env).2.aborted = false ∧
       cfg.scaleDownEnabled = true ∧
       ((tick cfg st env).2.toHelpAfter = [] ∨
        env.scaleUpResult = Except.ok false)) := by
  unfold tick tickBody
  dsimp only
  repeat' split
  all_goals
    simp_all [abortedTrace, scaleDownSection_classificationRan,
      scaleDownSection_aborted, scaleDownSection_toHelpAfter]

theorem tick_scaleUp_ends_tick (cfg : Config) (st : LoopState)
    (env : TickEnv) :
    ((tick cfg st env).2.scaleUpErred = true ∨
      (tick cfg st env).2.scaledUp = true) →
      (tick cfg st env).2.classificationRan = false ∧
      (tick cfg st env).2.actionRan = false := by
  unfold tick tickBody
  dsimp only
  repeat' split
  all_goals
    simp_all [abortedTrace, scaleDownSection_scaleUpErred,
      scaleDownSection_scaledUp]

theorem CheckGroupsAndNodes_error_iff (nodes : List Node) :
    CheckGroupsAndNodes nodes = Except.error () ↔
      ∃ n ∈ nodes, n.group = none := by
  unfold CheckGroupsAndNodes
  split
  · rename_i h
    simp only [List.all_eq_true] at h
    constructor
    · intro hcontra
      exact absurd hcontra (by simp)
    · rintro ⟨n, hn, hnone⟩
      have := h n hn
      rw [hnone] at this
      simp at this
  · rename_i h
    simp only [List.all_eq_true] at h
    push_neg at h
    constructor
    · rintro - 
      obtain ⟨n, hn, hns⟩ := h
      exact ⟨n, hn, by simpa [Option.isSome_iff_ne_none] using hns⟩
    · intro _
      rfl

theorem tick_actionRan_gates (cfg : Config) (st : LoopState) (env : TickEnv)
    (ha : (tick cfg st env).2.actionRan = true) :
    st.lastScaleUpTime + cfg.scaleDownDelay ≤ env.now ∧
    st.lastScaleDownFailedTrial + cfg.scaleDownTrialInterval ≤ env.now := by
  have hc := tick_actionRan_imp_classificationRan cfg st env ha
  have hg := (tick_classification_gating cfg st env hc).mp ha
  exact ⟨hg.1, hg.2.1⟩

theorem stateBefore_succ (cfg : Config) (st0 : LoopState) (envs : Nat → TickEnv)
    (n : Nat) :
    stateBefore cfg st0 envs (n + 1) =
      (tick cfg (stateBefore cfg st0 envs n) (envs n)).1 := rfl

theorem lastScaleUpTime_le_now (cfg : Config) (st0 : LoopState)
    (envs : Nat → TickEnv)
    (hmono : ∀ a b : Nat, a ≤ b → (envs a).now ≤ (envs b).now)
    (h0 : st0.lastScaleUpTime ≤ (envs 0).now) :
    ∀ n, (stateBefore cfg st0 envs n).lastScaleUpTime ≤ (envs n).now := by
  intro n
  induction n with
  | zero => exact h0
  | succ k ih =>
    have hmk : (envs k).now ≤ (envs (k + 1)).now := hmono k (k + 1) (Nat.le_succ k)
    rw [stateBefore_succ]
    rcases tick_lastScaleUpTime_cases cfg (stateBefore cfg st0 envs k) (envs k) with
      h | ⟨h, -⟩
    · rw [h]; exact le_trans ih hmk
    · rw [h]; exact hmk

theorem lastScaleUpTime_mono_step (cfg : Config) (st0 : LoopState)
    (envs : Nat → TickEnv)
    (hmono : ∀ a b : Nat, a ≤ b → (envs a).now ≤ (envs b).now)
    (h0 : st0.lastScaleUpTime ≤ (envs 0).now) (n : Nat) :
    (stateBefore cfg st0 envs n).lastScaleUpTime ≤
      (stateBefore cfg st0 envs (n + 1)).lastScaleUpTime := by
  rw [stateBefore_succ]
  rcases tick_lastScaleUpTime_cases cfg (stateBefore cfg st0 envs n) (envs n) with
    h | ⟨h, -⟩
  · rw [h]
  · rw [h]
    exact lastScaleUpTime_le_now cfg st0 envs hmono h0 n

theorem lastScaleUpTime_mono (cfg : Config) (st0 : LoopState)
    (envs : Nat → TickEnv)
    (hmono : ∀ a b : Nat, a ≤ b → (envs a).now ≤ (envs b).now)
    (h0 : st0.lastScaleUpTime ≤ (envs 0).now) :
    ∀ i j : Nat, i ≤ j →
      (stateBefore cfg st0 envs i).lastScaleUpTime ≤
        (stateBefore cfg st0 envs j).lastScaleUpTime := by
  intro i j hij
  induction j with
  | zero =>
    cases Nat.le_zero.mp hij
    exact le_refl _
  | succ k ih =>
    rcases Nat.lt_or_ge i (k + 1) with hlt | hge
    · exact le_trans (ih (Nat.lt_succ_iff.mp hlt))
        (lastScaleUpTime_mono_step cfg st0 envs hmono h0 k)
    · cases Nat.le_antisymm hij hge
      exact le_refl _

theorem scaledUp_lastScaleUpTime_lower_bound (cfg : Config) (st0 : LoopState)
    (envs : Nat → TickEnv)
    (hmono : ∀ a b : Nat, a ≤ b → (envs a).now ≤ (envs b).now)
    (i : Nat) (hsu : (traceAt cfg st0 envs i).scaledUp = true) :
    ∀ j, i < j → (envs i).now ≤ (stateBefore cfg st0 envs j).lastScaleUpTime := by
  intro j hij
  induction j with
  | zero => exact absurd hij (Nat.not_lt_zero i)
  | succ k ih =>
    rcases Nat.lt_or_ge i k with hlt | hge
    · have hk := ih hlt
      rw [stateBefore_succ]
      rcases tick_lastScaleUpTime_cases cfg (stateBefore cfg st0 envs k) (envs k) with
        h | ⟨h, -⟩
      · rw [h]; exact hk
      · rw [h]; exact hmono i k (Nat.le_of_lt hlt)
    · have hik : i = k := Nat.le_antisymm (Nat.lt_succ_iff.mp hij) hge
      cases hik
      rw [stateBefore_succ]
      have := (tick_scaledUp_shortCircuits cfg (stateBefore cfg st0 envs i) (envs i)
        hsu).1
      rw [this]

theorem t0_le_lastTimes (cfg : Config) (t0 : Nat) (envs : Nat → TickEnv)
    (hstart : ∀ i, t0 ≤ (envs i).now) :
    ∀ n, t0 ≤ (stateBefore cfg (initialState t0) envs n).lastScaleUpTime ∧
      t0 ≤ (stateBefore cfg (initialState t0) envs n).lastScaleDownFailedTrial := by
  intro n
  induction n with
  | zero => exact ⟨le_refl t0, le_refl t0⟩
  | succ k ih =>
    constructor
    · rw [stateBefore_succ]
      rcases tick_lastScaleUpTime_cases cfg
          (stateBefore cfg (initialState t0) envs k) (envs k) with h | ⟨h, -⟩
      · rw [h]; exact ih.1
      · rw [h]; exact hstart k
    · rw [stateBefore_succ]
      rcases tick_lastTrial_cases cfg
          (stateBefore cfg (initialState t0) envs k) (envs k) with h | h
      · rw [h]; exact ih.2
      · rw [h]; exact hstart k

theorem tick_toHelpAfter_sublist (cfg : Config) (st : LoopState) (env : TickEnv) :
    (tick cfg st env).2.toHelpAfter.Sublist (tick cfg st env).2.toHelpBefore := by
  unfold tick tickBody
  dsimp only
  repeat' split
  all_goals
    simp_all [abortedTrace, scaleDownSection_toHelpBefore,
      scaleDownSection_toHelpAfter, FilterOutSchedulable, List.filter_sublist]

theorem tick_verify_off_toHelp (cfg : Config) (st : LoopState) (env : TickEnv)
    (hv : cfg.verifyUnschedulablePods = false) :
    (tick cfg st env).2.toHelpAfter = (tick cfg st env).2.toHelpBefore := by
  unfold tick tickBody
  dsimp only
  repeat' split
  all_goals
    simp_all [abortedTrace, scaleDownSection_toHelpBefore,
      scaleDownSection_toHelpAfter]

theorem tick_verify_off_schedPresent (cfg : Config) (st : LoopState) (env : TickEnv)
    (hv : cfg.verifyUnschedulablePods = false) :
    (tick cfg st env).2.schedulablePodsPresent = false := by
  cases h : (tick cfg st env).2.schedulablePodsPresent
  · rfl
  · have := (tick_schedulablePodsPresent_iff cfg st env).mp h
    rw [hv] at this
    simp at this

/-- C1: within any tick in which the scale-down planner's classification
pass runs, the action pass runs if and only if all three gates hold:
`now − lastScaleUpTime ≥ scaleDownDelay`,
`now − lastScaleDownFailedTrial ≥ scaleDownTrialInterval`, and no
schedulable-but-marked-unschedulable workload was detected this tick; the
action pass never runs without the classification pass (so when a gate
fails only classification runs and `ScaleDown` — hence any node deletion —
is not attempted); and for every tick `i` at which scale-up succeeded, no
scale-down action is issued at any later tick `j` with
`now j − now i < scaleDownDelay`. -/
theorem scale_down_action_gating_and_delay (cfg : Config) (st0 : LoopState)
    (envs : Nat → TickEnv)
    (hmono : ∀ a b : Nat, a ≤ b → (envs a).now ≤ (envs b).now) :
    (∀ i, (traceAt cfg st0 envs i).classificationRan = true →
      ((traceAt cfg st0 envs i).actionRan = true ↔
        ((stateBefore cfg st0 envs i).lastScaleUpTime + cfg.scaleDownDelay ≤
            (envs i).now ∧
         (stateBefore cfg st0 envs i).lastScaleDownFailedTrial +
            cfg.scaleDownTrialInterval ≤ (envs i).now ∧
         (traceAt cfg st0 envs i).schedulablePodsPresent = false))) ∧
    (∀ i, (traceAt cfg st0 envs i).actionRan = true →
      (traceAt cfg st0 envs i).classificationRan = true) ∧
    (∀ i j, i < j → (traceAt cfg st0 envs i).scaledUp = true →
      (envs j).now - (envs i).now < cfg.scaleDownDelay →
      (traceAt cfg st0 envs j).actionRan = false) := by
  refine ⟨?_, ?_, ?_⟩
  · intro i
    exact tick_classification_gating cfg (stateBefore cfg st0 envs i) (envs i)
  · intro i
    exact tick_actionRan_imp_classificationRan cfg (stateBefore cfg st0 envs i)
      (envs i)
  · intro i j hij hsu hlt
    by_contra hact
    rw [Bool.not_eq_false] at hact
    have hg := tick_actionRan_gates cfg (stateBefore cfg st0 envs j) (envs j) hact
    have hlb := scaledUp_lastScaleUpTime_lower_bound cfg st0 envs hmono i hsu j hij
    have hmn := hmono i j (Nat.le_of_lt hij)
    omega

/-- Witness for C1 at a concrete run: a constant environment stream has
monotone times, and applying the theorem there yields the
action-implies-classification conjunct at tick 0. -/
theorem scale_down_action_gating_and_delay_witness :
    (∀ a b : Nat, a ≤ b →
      (constEnvs envQuiet a).now ≤ (constEnvs envQuiet b).now) ∧
    ((traceAt cfg0 (initialState 0) (constEnvs envQuiet) 0).actionRan = true →
      (traceAt cfg0 (initialState 0) (constEnvs envQuiet) 0).classificationRan =
        true) :=
  ⟨fun _ _ _ => le_refl _,
   (scale_down_action_gating_and_delay cfg0 (initialState 0) (constEnvs envQuiet)
      (fun _ _ _ => le_refl _)).2.1 0⟩

/-- C2: in every tick in which `ScaleUp` reported `scaledUp = true`,
`lastScaleUpTime` is set to the tick's current time and the tick ends
immediately: neither the scale-down classification pass nor the scale-down
action pass runs in that tick. -/
theorem scaleUp_success_short_circuits_tick (cfg : Config) (st : LoopState)
    (env : TickEnv) (h : (tick cfg st env).2.scaledUp = true) :
    (tick cfg st env).1.lastScaleUpTime = env.now ∧
    (tick cfg st env).2.classificationRan = false ∧
    (tick cfg st env).2.actionRan = false :=
  tick_scaledUp_shortCircuits cfg st env h

/-- Witness for C2: a tick with one unsatisfied workload and a successful
`ScaleUp`. -/
theorem scaleUp_success_short_circuits_tick_witness :
    (tick cfg0 (initialState 0)
        { envQuiet with
          unschedulableResult := Except.ok [podP]
          scaleUpResult := Except.ok true }).2.scaledUp = true ∧
    ((tick cfg0 (initialState 0)
        { envQuiet with
          unschedulableResult := Except.ok [podP]
          scaleUpResult := Except.ok true }).1.lastScaleUpTime =
      (({ envQuiet with
          unschedulableResult := Except.ok [podP]
          scaleUpResult := Except.ok true } : TickEnv)).now ∧
     (tick cfg0 (initialState 0)
        { envQuiet with
          unschedulableResult := Except.ok [podP]
          scaleUpResult := Except.ok true }).2.classificationRan = false ∧
     (tick cfg0 (initialState 0)
        { envQuiet with
          unschedulableResult := Except.ok [podP]
          scaleUpResult := Except.ok true }).2.actionRan = false) :=
  ⟨by decide,
   scaleUp_success_short_circuits_tick cfg0 (initialState 0)
     { envQuiet with
       unschedulableResult := Except.ok [podP]
       scaleUpResult := Except.ok true } (by decide)⟩

/-- C3 counterexample: a concrete tick in which the action pass runs and
the `ScaleDown` call returns an error value, yet `lastScaleDownFailedTrial`
keeps its old value `0` instead of being set to the current time `100`
(`main` only updates it when `err == nil`). -/
theorem scaleDown_error_trial_not_updated_counterexample :
    (tick cfg0 (initialState 0) envSdErr).2.actionRan = true ∧
    envSdErr.scaleDownResult = Except.error () ∧
    envSdErr.now = 100 ∧
    (tick cfg0 (initialState 0) envSdErr).1.lastScaleDownFailedTrial = 0 := by
  refine ⟨by decide, rfl, rfl, by decide⟩

/-- C3 (amended): in every tick in which the scale-down action pass runs,
if the `ScaleDown` call returns without an error value then a
`ScaleDownError` or `ScaleDownNoNodeDeleted` result sets
`lastScaleDownFailedTrial` to the current time, a `ScaleDownNodeDeleted`
result leaves it unchanged — and if the call returns an error value,
`lastScaleDownFailedTrial` is left unchanged. -/
theorem scaleDown_nonSuccess_sets_failed_trial (cfg : Config) (st : LoopState)
    (env : TickEnv) (h : (tick cfg st env).2.actionRan = true) :
    (env.scaleDownResult = Except.error () →
      (tick cfg st env).1.lastScaleDownFailedTrial =
        st.lastScaleDownFailedTrial) ∧
    (∀ r, env.scaleDownResult = Except.ok r →
      ((r = ScaleDownResult.scaleDownError ∨
          r = ScaleDownResult.scaleDownNoNodeDeleted) →
        (tick cfg st env).1.lastScaleDownFailedTrial = env.now) ∧
      (r = ScaleDownResult.scaleDownNodeDeleted →
        (tick cfg st env).1.lastScaleDownFailedTrial =
          st.lastScaleDownFailedTrial)) :=
  tick_action_trial_update cfg st env h

/-- Witness for C3 (amended): a tick whose action pass runs and whose
`ScaleDown` call returns `ScaleDownNoNodeDeleted`; the failed-trial
timestamp becomes the tick's time. -/
theorem scaleDown_nonSuccess_sets_failed_trial_witness :
    (tick cfg0 (initialState 0) envSdNoNode).2.actionRan = true ∧
    ((tick cfg0 (initialState 0) envSdNoNode).1.lastScaleDownFailedTrial =
      envSdNoNode.now) :=
  ⟨by decide,
   ((scaleDown_nonSuccess_sets_failed_trial cfg0 (initialState 0) envSdNoNode
        (by decide)).2 ScaleDownResult.scaleDownNoNodeDeleted rfl).1
      (Or.inr rfl)⟩

/-- C4 counterexample: a concrete tick with an unsatisfied workload
remaining after reset and filter (`toHelpAfter ≠ []`) in which the
scale-up planner runs, returns `(false, nil)`, and the tick nevertheless
falls through to the scale-down planner (its classification pass runs). -/
theorem scale_down_despite_unsatisfied_counterexample :
    (tick cfg0 (initialState 0) envFallThrough).2.toHelpAfter = [podP] ∧
    (tick cfg0 (initialState 0) envFallThrough).2.scaleUpRan = true ∧
    envFallThrough.scaleUpResult = Except.ok false ∧
    (tick cfg0 (initialState 0) envFallThrough).2.classificationRan = true := by
  refine ⟨by decide, by decide, rfl, by decide⟩

/-- C4 (amended): the scale-down planner's classification pass runs in a
tick exactly when the tick did not abort, scale-down is enabled, and
either no unsatisfied workloads remain after the reset and filter steps or
the scale-up planner returned `(false, nil)` (found nothing to do, without
error) — so a `(false, nil)` scale-up always falls through to scale-down;
whenever unsatisfied workloads remain in a non-aborted tick, the scale-up
planner runs first; and a scale-up error or a successful scale-up ends the
tick with neither scale-down pass running. -/
theorem scale_down_reached_conditions (cfg : Config) (st : LoopState)
    (env : TickEnv) :
    ((tick cfg st env).2.classificationRan = true ↔
      ((tick cfg st env).2.aborted = false ∧
       cfg.scaleDownEnabled = true ∧
       ((tick cfg st env).2.toHelpAfter = [] ∨
        env.scaleUpResult = Except.ok false))) ∧
    ((tick cfg st env).2.aborted = false →
      (tick cfg st env).2.toHelpAfter ≠ [] →
      (tick cfg st env).2.scaleUpRan = true) ∧
    (((tick cfg st env).2.scaleUpErred = true ∨
        (tick cfg st env).2.scaledUp = true) →
      (tick cfg st env).2.classificationRan = false ∧
      (tick cfg st env).2.actionRan = false) :=
  ⟨tick_classificationRan_iff cfg st env,
   tick_unsatisfied_scaleUpRan cfg st env,
   tick_scaleUp_ends_tick cfg st env⟩

/-- Witness for C4 (amended) at the fall-through tick: unsatisfied
workloads remain, `ScaleUp` returned `(false, nil)`, and the classification
pass ran. -/
theorem scale_down_reached_conditions_witness :
    ((tick cfg0 (initialState 0) envFallThrough).2.aborted = false ∧
     cfg0.scaleDownEnabled = true ∧
     ((tick cfg0 (initialState 0) envFallThrough).2.toHelpAfter = [] ∨
      envFallThrough.scaleUpResult = Except.ok false)) ∧
    (tick cfg0 (initialState 0) envFallThrough).2.toHelpAfter ≠ [] ∧
    (tick cfg0 (initialState 0) envFallThrough).2.classificationRan = true :=
  ⟨⟨by decide, by decide, Or.inr rfl⟩, by decide,
   (scale_down_reached_conditions cfg0 (initialState 0) envFallThrough).1.mpr
     ⟨by decide, by decide, Or.inr rfl⟩⟩

/-- C5: `schedulablePodsPresent` is true in a tick exactly when the
unschedulable filter ran (`verifyUnschedulablePods`) and removed at least
one workload from the unsatisfied set (the filtered set, always a sublist
of the unfiltered one, has a different length); and whenever
`schedulablePodsPresent` is true the scale-down action pass does not run in
that tick. -/
theorem filter_removal_sets_schedulablePodsPresent (cfg : Config)
    (st : LoopState) (env : TickEnv) :
    ((tick cfg st env).2.schedulablePodsPresent = true ↔
      (cfg.verifyUnschedulablePods = true ∧
       (tick cfg st env).2.toHelpAfter.length ≠
         (tick cfg st env).2.toHelpBefore.length)) ∧
    (tick cfg st env).2.toHelpAfter.Sublist (tick cfg st env).2.toHelpBefore ∧
    ((tick cfg st env).2.schedulablePodsPresent = true →
      (tick cfg st env).2.actionRan = false) :=
  ⟨tick_schedulablePodsPresent_iff cfg st env,
   tick_toHelpAfter_sublist cfg st env,
   tick_schedPresent_suppresses_action cfg st env⟩

/-- Witness for C5: a tick whose only unsatisfied workload is found to fit
a current node; the flag is set and the action pass is suppressed. -/
theorem filter_removal_sets_schedulablePodsPresent_witness :
    (tick cfg0 (initialState 0) envFilter).2.schedulablePodsPresent = true ∧
    (tick cfg0 (initialState 0) envFilter).2.actionRan = false :=
  ⟨by decide,
   (filter_removal_sets_schedulablePodsPresent cfg0 (initialState 0)
      envFilter).2.2 (by decide)⟩

/-- C6: if listing nodes fails, or the node list is empty, or the
group-membership check fails, or listing unschedulable or scheduled
workloads fails, the tick aborts: the whole cross-tick state
(`lastScaleUpTime`, `lastScaleDownFailedTrial`, `unneededNodes`,
`podLocationHints`, `usageTracker`) is unchanged and no pass that could
issue a provider mutation (scale-up, scale-down classification or action)
runs. -/
theorem listing_failure_aborts_tick (cfg : Config) (st : LoopState)
    (env : TickEnv)
    (h : env.nodesResult = Except.error () ∨
      (∃ nodes, env.nodesResult = Except.ok nodes ∧
        (nodes.length = 0 ∨ CheckGroupsAndNodes nodes = Except.error ())) ∨
      env.unschedulableResult = Except.error () ∨
      env.scheduledResult = Except.error ()) :
    (tick cfg st env).1 = st ∧
    (tick cfg st env).2.aborted = true ∧
    (tick cfg st env).2.scaleUpRan = false ∧
    (tick cfg st env).2.classificationRan = false ∧
    (tick cfg st env).2.actionRan = false := by
  have heq := tick_aborted_eq cfg st env h
  rw [heq]
  exact ⟨rfl, rfl, rfl, rfl, rfl⟩

/-- Witness for C6: a tick whose node listing fails leaves the state
unchanged. -/
theorem listing_failure_aborts_tick_witness :
    envListErr.nodesResult = Except.error () ∧
    (tick cfg0 (initialState 0) envListErr).1 = initialState 0 :=
  ⟨rfl,
   (listing_failure_aborts_tick cfg0 (initialState 0) envListErr
      (Or.inl rfl)).1⟩

/-- C7 counterexample: a concrete snapshot containing one node with no
known node group (next to a healthy node and with workloads listed): the
loop does not skip just that node — the whole tick aborts, nothing further
runs and the state is untouched. -/
theorem unknown_group_node_counterexample :
    (∃ n ∈ [nodeA, nodeBad], n.group = none) ∧
    (tick cfg0 (initialState 0) envBadNode).2.aborted = true ∧
    (tick cfg0 (initialState 0) envBadNode).2.scaleUpRan = false ∧
    (tick cfg0 (initialState 0) envBadNode).2.classificationRan = false ∧
    (tick cfg0 (initialState 0) envBadNode).1 = initialState 0 := by
  refine ⟨⟨nodeBad, by decide, rfl⟩, by decide, by decide, by decide, by decide⟩

/-- C7 (amended): when the listed snapshot contains a node that belongs to
no known node group, the loop warns and aborts the whole tick (`continue`):
the tick's remainder is skipped for all nodes and the state is unchanged,
to be retried next tick. -/
theorem unknown_group_node_aborts_tick (cfg : Config) (st : LoopState)
    (env : TickEnv) (nodes : List Node)
    (hn : env.nodesResult = Except.ok nodes)
    (hbad : ∃ n ∈ nodes, n.group = none) :
    tick cfg st env = (st, abortedTrace) :=
  tick_aborted_eq cfg st env
    (Or.inr (Or.inl ⟨nodes, hn,
      Or.inr ((CheckGroupsAndNodes_error_iff nodes).mpr hbad)⟩))

/-- Witness for C7 (amended) at the concrete bad snapshot. -/
theorem unknown_group_node_aborts_tick_witness :
    envBadNode.nodesResult = Except.ok [nodeA, nodeBad] ∧
    (∃ n ∈ [nodeA, nodeBad], n.group = none) ∧
    tick cfg0 (initialState 0) envBadNode = (initialState 0, abortedTrace) :=
  ⟨rfl, ⟨nodeBad, by decide, rfl⟩,
   unknown_group_node_aborts_tick cfg0 (initialState 0) envBadNode
     [nodeA, nodeBad] rfl ⟨nodeBad, by decide, rfl⟩⟩

/-- C8: `lastScaleUpTime` is monotonically non-decreasing over the lifetime
of the loop: with a monotone wall clock that starts no earlier than the
initial value of `lastScaleUpTime`, the value of `lastScaleUpTime` before
tick `i` is at most its value before tick `j`, for all `i ≤ j` (and hence
likewise for the values after each tick, which are the values before the
following tick). -/
theorem lastScaleUpTime_monotone (cfg : Config) (st0 : LoopState)
    (envs : Nat → TickEnv)
    (hmono : ∀ a b : Nat, a ≤ b → (envs a).now ≤ (envs b).now)
    (h0 : st0.lastScaleUpTime ≤ (envs 0).now) :
    ∀ i j : Nat, i ≤ j →
      (stateBefore cfg st0 envs i).lastScaleUpTime ≤
        (stateBefore cfg st0 envs j).lastScaleUpTime :=
  lastScaleUpTime_mono cfg st0 envs hmono h0

/-- Witness for C8 at a concrete constant-time run. -/
theorem lastScaleUpTime_monotone_witness :
    ((initialState 0).lastScaleUpTime ≤ (constEnvs envQuiet 0).now) ∧
    (stateBefore cfg0 (initialState 0) (constEnvs envQuiet) 0).lastScaleUpTime ≤
      (stateBefore cfg0 (initialState 0) (constEnvs envQuiet) 3).lastScaleUpTime :=
  ⟨by decide,
   lastScaleUpTime_monotone cfg0 (initialState 0) (constEnvs envQuiet)
     (fun _ _ _ => le_refl _) (by decide) 0 3 (by decide)⟩

/-- C9: when `verifyUnschedulablePods` is false the unschedulable filter is
skipped: the unsatisfied set after the filter step equals the set before
it in every tick, `schedulablePodsPresent` is false in every tick, and
within a tick that runs the classification pass the action pass is gated
on the two time conditions alone. -/
theorem verify_off_skips_filter (cfg : Config) (st : LoopState)
    (env : TickEnv) (hv : cfg.verifyUnschedulablePods = false) :
    (tick cfg st env).2.toHelpAfter = (tick cfg st env).2.toHelpBefore ∧
    (tick cfg st env).2.schedulablePodsPresent = false ∧
    ((tick cfg st env).2.classificationRan = true →
      ((tick cfg st env).2.actionRan = true ↔
        (st.lastScaleUpTime + cfg.scaleDownDelay ≤ env.now ∧
         st.lastScaleDownFailedTrial + cfg.scaleDownTrialInterval ≤ env.now))) := by
  refine ⟨tick_verify_off_toHelp cfg st env hv,
    tick_verify_off_schedPresent cfg st env hv, ?_⟩
  intro hc
  have hg := tick_classification_gating cfg st env hc
  have hsp := tick_verify_off_schedPresent cfg st env hv
  rw [hg]
  constructor
  · rintro ⟨h1, h2, -⟩
    exact ⟨h1, h2⟩
  · rintro ⟨h1, h2⟩
    exact ⟨h1, h2, hsp⟩

/-- Witness for C9: with the filter disabled, a pod that would fit is not
removed and `schedulablePodsPresent` stays false. -/
theorem verify_off_skips_filter_witness :
    ({ cfg0 with verifyUnschedulablePods := false }).verifyUnschedulablePods =
      false ∧
    (tick { cfg0 with verifyUnschedulablePods := false } (initialState 0)
        envFilter).2.toHelpAfter =
      (tick { cfg0 with verifyUnschedulablePods := false } (initialState 0)
        envFilter).2.toHelpBefore :=
  ⟨rfl,
   (verify_off_skips_filter { cfg0 with verifyUnschedulablePods := false }
      (initialState 0) envFilter rfl).1⟩

/-- C10: at process start both timers are initialized to the startup time
`t0`; consequently, in a run whose ticks all happen at or after `t0`, no
scale-down action pass runs at any tick whose time is earlier than
`t0 + scaleDownDelay` or earlier than `t0 + scaleDownTrialInterval`, even
if no scale-up and no failed scale-down trial ever occurred. -/
theorem startup_grace_period (cfg : Config) (t0 : Nat)
    (envs : Nat → TickEnv) (hstart : ∀ i, t0 ≤ (envs i).now) :
    (initialState t0).lastScaleUpTime = t0 ∧
    (initialState t0).lastScaleDownFailedTrial = t0 ∧
    ∀ i, ((envs i).now < t0 + cfg.scaleDownDelay ∨
          (envs i).now < t0 + cfg.scaleDownTrialInterval) →
      (traceAt cfg (initialState t0) envs i).actionRan = false := by
  refine ⟨rfl, rfl, ?_⟩
  intro i hi
  by_contra hact
  rw [Bool.not_eq_false] at hact
  have hg := tick_actionRan_gates cfg (stateBefore cfg (initialState t0) envs i)
    (envs i) hact
  have hinv := t0_le_lastTimes cfg t0 envs hstart i
  rcases hi with hi | hi
  · omega
  · omega

/-- Witness for C10: with startup time `90` and a tick at time `95`
(inside both windows of `cfg0`), the action pass does not run. -/
theorem startup_grace_period_witness :
    (∀ i : Nat, 90 ≤ (constEnvs envT95 i).now) ∧
    (traceAt cfg0 (initialState 90) (constEnvs envT95) 0).actionRan = false :=
  ⟨fun _ => (by decide : (90 : Nat) ≤ 95),
   (startup_grace_period cfg0 90 (constEnvs envT95)
      (fun _ => (by decide : (90 : Nat) ≤ 95))).2.2 0 (Or.inl (by decide))⟩
